import Mathlib

/-!
A shallow embedding of the stock-forecasting repository (`model.py`, `app.py`).

`model.py` exposes `train_svr_model` (download one year of daily closes,
90/10 chronological split, CPU-adaptive grid for a 5-fold cross-validated
grid search over an SVR pipeline, test-set MSE/MAE) and `create_forecast`
(enumerate future calendar dates after the last historical date and predict
a price for each).  `app.py` exposes the Dash callback `forecast_stock`
wiring the two together behind a truthiness guard.

Modelling conventions: pandas timestamps are ordinal day numbers (`Int`),
prices are exact rationals (`ℚ`), a pandas `DataFrame` is a list of named
columns of cells, and Python exceptions are `Except` errors.  The fitted
SVR pipeline (`TransformedTargetRegressor` around `StandardScaler` + `SVR`)
is an external library whose training routine is kept abstract as a
parameter `fitSVR : SVRParams → List (ℚ × ℚ) → (ℚ → ℚ)` mapping
hyperparameters and (feature, target) data to a prediction function;
likewise `yf.download` is an abstract `fetch : String → List RawRow` and
`psutil.cpu_percent` an explicit `cpu_load : ℚ` argument.
-/

namespace StockForecast

/-- A data-frame cell: a calendar date (stored as its proleptic-Gregorian
ordinal day number, mirroring a pandas `Timestamp`) or a numeric value. -/
inductive Val where
  | date (d : Int)
  | num (q : ℚ)
deriving DecidableEq

/-- `x.toordinal()` applied to a cell of the `Date` column
(`df['Date'].apply(lambda x: x.toordinal())` in `train_svr_model`).
On a non-date cell the Python call would fail; junk identity there. -/
def Val.toordinal : Val → Val
  | .date d => .num (d : ℚ)
  | .num q => .num q

/-- Read a cell as the numeric value it contributes to a numpy array. -/
def Val.asQ : Val → ℚ
  | .date d => (d : ℚ)
  | .num q => q

/-- `d.toordinal()` on a `Date` cell used as a timestamp in
`create_forecast` (junk 0 on a non-date cell, where Python would fail). -/
def Val.toTimestamp : Val → Int
  | .date d => d
  | .num _ => 0

/-- A pandas data frame: named columns of cells, in column order. -/
structure DataFrame where
  cols : List (String × List Val)
deriving DecidableEq

/-- `df[name]`: the data of the named column (junk `[]` where pandas
would raise a `KeyError`). -/
def DataFrame.getCol (df : DataFrame) (name : String) : List Val :=
  match df.cols.find? (fun c => c.1 == name) with
  | some c => c.2
  | none => []

/-- `df.columns`: the column names in order. -/
def DataFrame.colNames (df : DataFrame) : List String :=
  df.cols.map Prod.fst

/-- `df[[n1, n2, ...]]`: keep only the named columns, in the given order. -/
def DataFrame.select (df : DataFrame) (names : List String) : DataFrame :=
  ⟨names.map fun n => (n, df.getCol n)⟩

/-- `df[name] = vals`: replace the column if present, else append it. -/
def DataFrame.setCol (df : DataFrame) (name : String) (vals : List Val) : DataFrame :=
  if df.cols.any (fun c => c.1 == name) then
    ⟨df.cols.map fun c => if c.1 == name then (c.1, vals) else c⟩
  else
    ⟨df.cols ++ [(name, vals)]⟩

/-- One row of the frame returned by
`yf.download(stock_code, period="1y", interval="1d")`: a trading day with
its OHLCV prices. -/
structure RawRow where
  date : Int
  openPrice : ℚ
  high : ℚ
  low : ℚ
  close : ℚ
  volume : ℚ
deriving DecidableEq

/-- The downloaded frame after `reset_index()`: the `Date` index becomes a
column followed by the OHLCV price columns. -/
def rawDF (raw : List RawRow) : DataFrame :=
  ⟨[("Date", raw.map fun r => .date r.date),
    ("Open", raw.map fun r => .num r.openPrice),
    ("High", raw.map fun r => .num r.high),
    ("Low", raw.map fun r => .num r.low),
    ("Close", raw.map fun r => .num r.close),
    ("Volume", raw.map fun r => .num r.volume)]⟩

/-- The SVR `gamma` hyperparameter: `'scale'`, `'auto'`, or a number. -/
inductive Gamma where
  | scale
  | auto
  | num (q : ℚ)
deriving DecidableEq

/-- One candidate hyperparameter combination for the SVR regressor
(`regressor__svr__C`, `regressor__svr__epsilon`, `regressor__svr__gamma`). -/
structure SVRParams where
  c : ℚ
  epsilon : ℚ
  gamma : Gamma
deriving DecidableEq

/-- A `param_grid` dict: the candidate values per hyperparameter. -/
structure ParamGrid where
  cs : List ℚ
  epsilons : List ℚ
  gammas : List Gamma
deriving DecidableEq

/-- The cartesian product of candidate combinations that `GridSearchCV`
enumerates from a `param_grid` dict (keys in sorted order: C, epsilon,
gamma). -/
def ParamGrid.candidates (g : ParamGrid) : List SVRParams :=
  g.cs.flatMap fun c => g.epsilons.flatMap fun e => g.gammas.map fun ga => ⟨c, e, ga⟩

/-- The reduced `param_grid` chosen when `cpu_load > 80`:
C ∈ {1, 10}, epsilon ∈ {0.1, 0.5}, gamma ∈ {scale, 0.1}
(decimals written as exact fractions). -/
def reducedGrid : ParamGrid :=
  ⟨[1, 10], [1/10, 1/2], [.scale, .num (1/10)]⟩

/-- The full `param_grid` chosen otherwise:
C ∈ {0.1, 1, 10, 100}, epsilon ∈ {0.01, 0.1, 0.5, 1},
gamma ∈ {scale, auto, 0.01, 0.1, 1} (decimals as exact fractions). -/
def fullGrid : ParamGrid :=
  ⟨[1/10, 1, 10, 100], [1/100, 1/10, 1/2, 1],
   [.scale, .auto, .num (1/100), .num (1/10), .num 1]⟩

/-- The CPU-adaptive grid selection in `train_svr_model`:
`if cpu_load > 80: param_grid = {...reduced...} else: param_grid = {...full...}`. -/
def param_grid (cpu_load : ℚ) : ParamGrid :=
  if cpu_load > 80 then reducedGrid else fullGrid

/-- `sklearn.metrics.mean_squared_error`. -/
def mean_squared_error (yTrue yPred : List ℚ) : ℚ :=
  (((yTrue.zip yPred).map fun p => (p.1 - p.2) ^ 2).sum) / yTrue.length

/-- `sklearn.metrics.mean_absolute_error`. -/
def mean_absolute_error (yTrue yPred : List ℚ) : ℚ :=
  (((yTrue.zip yPred).map fun p => |p.1 - p.2|).sum) / yTrue.length

/-- The `scoring='neg_mean_squared_error'` scorer of the grid search. -/
def neg_mean_squared_error (yTrue yPred : List ℚ) : ℚ :=
  -(mean_squared_error yTrue yPred)

/-- Sizes of the `cv` consecutive folds `sklearn` `KFold` makes of `n`
samples: the first `n % cv` folds get `n / cv + 1` samples, the rest
`n / cv`. -/
def foldSizes (cv n : Nat) : List Nat :=
  (List.range cv).map fun i => n / cv + if i < n % cv then 1 else 0

/-- Cut a list into consecutive chunks of the given sizes. -/
def splitAtSizes : List Nat → List α → List (List α)
  | [], _ => []
  | s :: rest, data => data.take s :: splitAtSizes rest (data.drop s)

/-- The `KFold(cv)` validation/training pairs: for each fold, that fold as
validation set and the remaining folds (in order) as training set. -/
def kfoldPairs (cv : Nat) (data : List α) : List (List α × List α) :=
  let chunks := splitAtSizes (foldSizes cv data.length) data
  (List.range chunks.length).map fun i =>
    (chunks.getD i [], ((chunks.take i) ++ (chunks.drop (i + 1))).flatten)

/-- The cross-validated score of one candidate: mean over the `cv` folds of
the scorer applied to the validation targets and the predictions of the
model fitted on the complementary training part. -/
def crossValScore (cv : Nat) (scorer : List ℚ → List ℚ → ℚ)
    (fitp : List (ℚ × ℚ) → (ℚ → ℚ)) (data : List (ℚ × ℚ)) : ℚ :=
  let folds := kfoldPairs cv data
  ((folds.map fun fl =>
      scorer (fl.1.map Prod.snd) (fl.1.map fun xy => fitp fl.2 xy.1)).sum) / folds.length

/-- First element of the list attaining the maximal score (`GridSearchCV`
breaks score ties in favour of the earliest candidate). -/
def bestBy (score : α → ℚ) : List α → Option α
  | [] => none
  | a :: rest =>
    match bestBy score rest with
    | none => some a
    | some b => if score b > score a then some b else some a

/-- `GridSearchCV(regressor, param_grid, cv, scoring).fit(X, y)` followed by
`.best_estimator_`: score every candidate by cross-validation, pick the
best, and refit it on the full training data (`refit=True` default).
Returns the chosen parameters with the refitted model; `none` only on an
empty candidate list. -/
def gridSearchFit (grid : List SVRParams) (cv : Nat)
    (scorer : List ℚ → List ℚ → ℚ)
    (fitSVR : SVRParams → List (ℚ × ℚ) → (ℚ → ℚ))
    (data : List (ℚ × ℚ)) : Option (SVRParams × (ℚ → ℚ)) :=
  (bestBy (fun p => crossValScore cv scorer (fitSVR p) data) grid).map
    fun p => (p, fitSVR p data)

/-- `train_test_split(X, y, test_size=0.1, shuffle=False)`: the trailing
`ceil(0.1 * n)` rows are the test set, the leading remainder the training
set, order preserved. -/
def train_test_split (X : List α) (y : List β) :
    List α × List α × List β × List β :=
  let n := X.length
  let nTest := (n + 9) / 10
  let nTrain := n - nTest
  (X.take nTrain, X.drop nTrain, y.take nTrain, y.drop nTrain)

/-- The frame built inside `train_svr_model`:
`df = df.reset_index()[['Date', 'Close']]` then
`df['Date_numeric'] = df['Date'].apply(lambda x: x.toordinal())`. -/
def builtDF (raw : List RawRow) : DataFrame :=
  let df := (rawDF raw).select ["Date", "Close"]
  df.setCol "Date_numeric" ((df.getCol "Date").map Val.toordinal)

/-- `X = df['Date_numeric'].values.reshape(-1, 1)` (the sole feature). -/
def featuresX (raw : List RawRow) : List ℚ :=
  ((builtDF raw).getCol "Date_numeric").map Val.asQ

/-- `y = df['Close'].values.ravel()`. -/
def targetY (raw : List RawRow) : List ℚ :=
  ((builtDF raw).getCol "Close").map Val.asQ

/-- `X_train` of the split in `train_svr_model`. -/
def trainX (raw : List RawRow) : List ℚ :=
  (train_test_split (featuresX raw) (targetY raw)).1

/-- `X_test` of the split in `train_svr_model`. -/
def testX (raw : List RawRow) : List ℚ :=
  (train_test_split (featuresX raw) (targetY raw)).2.1

/-- `y_train` of the split in `train_svr_model`. -/
def trainY (raw : List RawRow) : List ℚ :=
  (train_test_split (featuresX raw) (targetY raw)).2.2.1

/-- `y_test` of the split in `train_svr_model`. -/
def testY (raw : List RawRow) : List ℚ :=
  (train_test_split (featuresX raw) (targetY raw)).2.2.2

/-- The (feature, target) training pairs handed to `grid.fit(X_train, y_train)`. -/
def trainingData (raw : List RawRow) : List (ℚ × ℚ) :=
  (trainX raw).zip (trainY raw)

/-- The exceptions `train_svr_model` can raise: the explicit
`ValueError("No data available for the given stock code.")` on an empty
download, and the library's own failure when fitting is impossible
(`KFold` refuses `n_splits=5` on fewer than 5 training samples, and the
split itself refuses an empty training set). -/
inductive TrainError where
  | noDataError
  | fitFailure
deriving DecidableEq

/-- The tuple `return best_model, mse, mae, df` of `train_svr_model`. -/
structure TrainResult where
  model : ℚ → ℚ
  mse : ℚ
  mae : ℚ
  df : DataFrame

/-- `train_svr_model(stock_code)` from `model.py`, with the external
collaborators explicit: `fitSVR` stands for the SVR pipeline's fitting
routine, `fetch` for `yf.download(..., period="1y", interval="1d")`, and
`cpu_load` for the fresh `psutil.cpu_percent(interval=1)` sample. -/
def train_svr_model
    (fitSVR : SVRParams → List (ℚ × ℚ) → (ℚ → ℚ))
    (fetch : String → List RawRow)
    (cpu_load : ℚ) (stock_code : String) : Except TrainError TrainResult :=
  let raw := fetch stock_code
  if raw.isEmpty then .error .noDataError
  else if (trainX raw).length < 5 then .error .fitFailure
  else
    match gridSearchFit (param_grid cpu_load).candidates 5 neg_mean_squared_error
        fitSVR (trainingData raw) with
    | none => .error .fitFailure
    | some pm =>
      let y_pred := (testX raw).map pm.2
      .ok ⟨pm.2, mean_squared_error (testY raw) y_pred,
           mean_absolute_error (testY raw) y_pred, builtDF raw⟩

/-- The exceptions `create_forecast` can raise: the `IndexError` of
`df['Date'].iloc[-1]` on an empty frame, and the `ValueError` the sklearn
input check raises when `model.predict` receives the empty list built for
a non-positive `forecast_days`. -/
inductive ForecastError where
  | indexError
  | emptyPredictInput
deriving DecidableEq

/-- One row of the returned `forecast_df`. -/
structure ForecastRow where
  date : Int
  predicted : ℚ
deriving DecidableEq

/-- Python `range(a, b)` over integers. -/
def intRange (a b : Int) : List Int :=
  (List.range (b - a).toNat).map fun (i : Nat) => a + (i : Int)

/-- `create_forecast(model, df, forecast_days)` from `model.py`:
`last_date = df['Date'].iloc[-1]`;
`future_dates = [last_date + pd.Timedelta(days=i) for i in range(1, forecast_days + 1)]`;
`predictions = model.predict(future_dates_numeric)`;
pair dates with predictions in a `DataFrame`. -/
def create_forecast (model : ℚ → ℚ) (df : DataFrame) (forecast_days : Int) :
    Except ForecastError (List ForecastRow) :=
  match (df.getCol "Date").getLast? with
  | none => .error .indexError
  | some lastVal =>
    let last_date := lastVal.toTimestamp
    let future_dates := (intRange 1 (forecast_days + 1)).map fun i => last_date + i
    if future_dates.isEmpty then .error .emptyPredictInput
    else
      let predictions := future_dates.map fun (d : Int) => model (d : ℚ)
      .ok ((future_dates.zip predictions).map fun p => ⟨p.1, p.2⟩)

/-- Observable steps of the forecast callback: the data download performed
inside `train_svr_model`, and the model-fitting phase (split + grid
search) that runs whenever the download is non-empty. -/
inductive Event where
  | fetchData (ticker : String)
  | fitModel
deriving DecidableEq

/-- What the Dash callback `forecast_stock` returns (or raises):
`PreventUpdate`, the `html.Div(f"Error training model: {e}")` branch, an
exception escaping the un-guarded `create_forecast` call, or the rendered
metrics + forecast graph. -/
inductive CallbackResult where
  | preventUpdate
  | errorDiv (msg : String)
  | uncaught (e : ForecastError)
  | rendered (forecast : List ForecastRow) (mse mae : ℚ)
deriving DecidableEq

/-- Python truthiness of the `n_clicks` argument (`None` or an int). -/
def truthyNat : Option Nat → Bool
  | none => false
  | some n => n != 0

/-- Python truthiness of the `stock-code` value (`None` or a string). -/
def truthyStr : Option String → Bool
  | none => false
  | some s => s != ""

/-- Python truthiness of the `forecast-days` number input (`None` or a
number; the dash `type="number"` field yields `None` when empty). -/
def truthyInt : Option Int → Bool
  | none => false
  | some i => i != 0

/-- The message of the exception shown in the `html.Div`. -/
def trainErrorMsg : TrainError → String
  | .noDataError => "No data available for the given stock code."
  | .fitFailure => "Fit failed."

/-- The Dash callback `forecast_stock(n_clicks, stock_code, forecast_days)`
of `app.py`, instrumented with the list of observable events it performs:
`if not n_clicks or not stock_code or not forecast_days: raise PreventUpdate`;
then `train_svr_model` inside `try` (its exceptions become an error div);
then the un-guarded `create_forecast(model, df, int(forecast_days))`. -/
def forecast_stock
    (fitSVR : SVRParams → List (ℚ × ℚ) → (ℚ → ℚ))
    (fetch : String → List RawRow) (cpu_load : ℚ)
    (n_clicks : Option Nat) (stock_code : Option String)
    (forecast_days : Option Int) : CallbackResult × List Event :=
  if truthyNat n_clicks && truthyStr stock_code && truthyInt forecast_days then
    let code := stock_code.getD ""
    let evs := Event.fetchData code ::
      (if (fetch code).isEmpty then [] else [Event.fitModel])
    match train_svr_model fitSVR fetch cpu_load code with
    | .error e => (.errorDiv ("Error training model: " ++ trainErrorMsg e), evs)
    | .ok r =>
      match create_forecast r.model r.df (forecast_days.getD 0) with
      | .error e => (.uncaught e, evs)
      | .ok fc => (.rendered fc r.mse r.mae, evs)
  else
    (.preventUpdate, [])

/-- A trivial stand-in for the external SVR fitting routine, used in
concrete witnesses: every fit yields the constant-zero predictor. -/
def constFitSVR : SVRParams → List (ℚ × ℚ) → ℚ → ℚ :=
  fun _ _ _ => 0

/-- A concrete empty download. -/
def fetchEmpty : String → List RawRow :=
  fun _ => []

/-- A concrete 3-trading-day download (too short for 5-fold CV). -/
def fetch3 : String → List RawRow :=
  fun _ => [⟨1, 0, 0, 0, 0, 0⟩, ⟨2, 0, 0, 0, 0, 0⟩, ⟨3, 0, 0, 0, 0, 0⟩]

/-- A concrete 6-trading-day download (just enough training rows for CV). -/
def fetch6 : String → List RawRow :=
  fun _ => [⟨1, 0, 0, 0, 0, 0⟩, ⟨2, 0, 0, 0, 0, 0⟩, ⟨3, 0, 0, 0, 0, 0⟩,
            ⟨4, 0, 0, 0, 0, 0⟩, ⟨5, 0, 0, 0, 0, 0⟩, ⟨6, 0, 0, 0, 0, 0⟩]

/-- A concrete 10-trading-day download. -/
def fetch10 : String → List RawRow :=
  fun _ => [⟨1, 0, 0, 0, 0, 0⟩, ⟨2, 0, 0, 0, 0, 0⟩, ⟨3, 0, 0, 0, 0, 0⟩,
            ⟨4, 0, 0, 0, 0, 0⟩, ⟨5, 0, 0, 0, 0, 0⟩, ⟨6, 0, 0, 0, 0, 0⟩,
            ⟨7, 0, 0, 0, 0, 0⟩, ⟨8, 0, 0, 0, 0, 0⟩, ⟨9, 0, 0, 0, 0, 0⟩,
            ⟨10, 0, 0, 0, 0, 0⟩]

/-- A concrete one-row history frame in the shape `train_svr_model` returns. -/
def dfOneDate : DataFrame :=
  ⟨[("Date", [Val.date 738000]), ("Close", [Val.num 5]),
    ("Date_numeric", [Val.num 738000])]⟩

/-! ### Helper lemmas -/

/-- The frame built by `train_svr_model`, in explicit column form. -/
theorem builtDF_eq (raw : List RawRow) :
    builtDF raw =
      ⟨[("Date", raw.map fun r => .date r.date),
        ("Close", raw.map fun r => .num r.close),
        ("Date_numeric", raw.map fun r => .num ((r.date : Int) : ℚ))]⟩ := by
  simp [builtDF, rawDF, DataFrame.select, DataFrame.getCol, DataFrame.setCol,
    List.map_map, Function.comp, Val.toordinal]

theorem getCol_builtDF_date (raw : List RawRow) :
    (builtDF raw).getCol "Date" = raw.map fun r => .date r.date := by
  rw [builtDF_eq]; rfl

theorem getCol_builtDF_close (raw : List RawRow) :
    (builtDF raw).getCol "Close" = raw.map fun r => .num r.close := by
  rw [builtDF_eq]; rfl

theorem getCol_builtDF_datenum (raw : List RawRow) :
    (builtDF raw).getCol "Date_numeric" =
      raw.map fun r => .num ((r.date : Int) : ℚ) := by
  rw [builtDF_eq]; rfl

theorem colNames_builtDF (raw : List RawRow) :
    (builtDF raw).colNames = ["Date", "Close", "Date_numeric"] := by
  rw [builtDF_eq]; rfl

theorem featuresX_eq (raw : List RawRow) :
    featuresX raw = raw.map fun r => ((r.date : Int) : ℚ) := by
  simp [featuresX, getCol_builtDF_datenum, List.map_map, Function.comp, Val.asQ]

theorem targetY_eq (raw : List RawRow) :
    targetY raw = raw.map fun r => r.close := by
  simp [targetY, getCol_builtDF_close, List.map_map, Function.comp, Val.asQ]

theorem featuresX_length (raw : List RawRow) :
    (featuresX raw).length = raw.length := by
  rw [featuresX_eq, List.length_map]

theorem trainX_length (raw : List RawRow) :
    (trainX raw).length = 9 * raw.length / 10 := by
  rw [trainX, train_test_split]
  simp only [List.length_take, featuresX_length]
  omega

theorem bestBy_ne_none (score : α → ℚ) (l : List α) (h : l ≠ []) :
    ∃ b, bestBy score l = some b := by
  cases l with
  | nil => exact absurd rfl h
  | cons a rest =>
    rw [bestBy]
    cases bestBy score rest with
    | none => exact ⟨a, rfl⟩
    | some b =>
      by_cases hgt : score b > score a
      · exact ⟨b, by simp [hgt]⟩
      · exact ⟨a, by simp [hgt]⟩

theorem bestBy_mem (score : α → ℚ) (l : List α) (b : α)
    (h : bestBy score l = some b) : b ∈ l := by
  induction l with
  | nil => simp [bestBy] at h
  | cons a rest ih =>
    cases hr : bestBy score rest with
    | none =>
      simp only [bestBy, hr] at h
      injection h with h
      subst h
      exact List.mem_cons_self _ _
    | some c =>
      simp only [bestBy, hr] at h
      by_cases hgt : score c > score a
      · rw [if_pos hgt] at h
        injection h with h
        subst h
        exact List.mem_cons_of_mem _ (ih hr)
      · rw [if_neg hgt] at h
        injection h with h
        subst h
        exact List.mem_cons_self _ _

theorem bestBy_le (score : α → ℚ) (l : List α) :
    ∀ b, bestBy score l = some b → ∀ a ∈ l, score a ≤ score b := by
  induction l with
  | nil => intro b h; simp [bestBy] at h
  | cons a rest ih =>
    intro b h
    cases hr : bestBy score rest with
    | none =>
      have hrest : rest = [] := by
        by_contra hne
        obtain ⟨c, hc⟩ := bestBy_ne_none score rest hne
        rw [hc] at hr
        cases hr
      subst hrest
      simp only [bestBy] at h
      injection h with h
      subst h
      intro x hx
      simp at hx
      subst hx
      exact le_refl _
    | some c =>
      simp only [bestBy, hr] at h
      by_cases hgt : score c > score a
      · rw [if_pos hgt] at h
        injection h with h
        subst h
        intro x hx
        rcases List.mem_cons.1 hx with rfl | hmem
        · exact le_of_lt hgt
        · exact ih c hr x hmem
      · rw [if_neg hgt] at h
        injection h with h
        subst h
        intro x hx
        rcases List.mem_cons.1 hx with rfl | hmem
        · exact le_refl _
        · exact le_trans (ih c hr x hmem) (le_of_not_lt hgt)

theorem param_grid_candidates_ne_nil (cpu_load : ℚ) :
    (param_grid cpu_load).candidates ≠ [] := by
  rw [param_grid]
  split <;> decide

/-- Success shape of `train_svr_model`: once the download has at least 6
rows (so the training segment has at least the 5 samples the 5-fold CV
needs), training returns the refit of the cross-validation-maximal grid
candidate together with its test-set metrics and the built frame. -/
theorem train_svr_model_success
    (fitSVR : SVRParams → List (ℚ × ℚ) → (ℚ → ℚ))
    (fetch : String → List RawRow) (cpu_load : ℚ) (stock_code : String)
    (h6 : 6 ≤ (fetch stock_code).length) :
    ∃ p, p ∈ (param_grid cpu_load).candidates ∧
      (∀ q ∈ (param_grid cpu_load).candidates,
        crossValScore 5 neg_mean_squared_error (fitSVR q) (trainingData (fetch stock_code)) ≤
        crossValScore 5 neg_mean_squared_error (fitSVR p) (trainingData (fetch stock_code))) ∧
      train_svr_model fitSVR fetch cpu_load stock_code =
        .ok ⟨fitSVR p (trainingData (fetch stock_code)),
             mean_squared_error (testY (fetch stock_code))
               ((testX (fetch stock_code)).map (fitSVR p (trainingData (fetch stock_code)))),
             mean_absolute_error (testY (fetch stock_code))
               ((testX (fetch stock_code)).map (fitSVR p (trainingData (fetch stock_code)))),
             builtDF (fetch stock_code)⟩ := by
  obtain ⟨p, hp⟩ := bestBy_ne_none
    (fun p => crossValScore 5 neg_mean_squared_error (fitSVR p) (trainingData (fetch stock_code)))
    (param_grid cpu_load).candidates (param_grid_candidates_ne_nil cpu_load)
  refine ⟨p, bestBy_mem _ _ _ hp, bestBy_le _ _ _ hp, ?_⟩
  have hne : (fetch stock_code).isEmpty = false := by
    cases hfe : fetch stock_code with
    | nil => rw [hfe] at h6; simp at h6
    | cons a l => rfl
  have h5 : ¬((trainX (fetch stock_code)).length < 5) := by
    rw [trainX_length]; omega
  rw [train_svr_model]
  simp only [hne, Bool.false_eq_true, if_false, h5, gridSearchFit, hp, Option.map_some']

/-- `mean_squared_error` is non-negative. -/
theorem mean_squared_error_nonneg (yTrue yPred : List ℚ) :
    0 ≤ mean_squared_error yTrue yPred := by
  rw [mean_squared_error]
  apply div_nonneg
  · apply List.sum_nonneg
    intro x hx
    obtain ⟨p, _, rfl⟩ := List.mem_map.1 hx
    exact sq_nonneg _
  · exact Nat.cast_nonneg _

/-- `mean_absolute_error` is non-negative. -/
theorem mean_absolute_error_nonneg (yTrue yPred : List ℚ) :
    0 ≤ mean_absolute_error yTrue yPred := by
  rw [mean_absolute_error]
  apply div_nonneg
  · apply List.sum_nonneg
    intro x hx
    obtain ⟨p, _, rfl⟩ := List.mem_map.1 hx
    exact abs_nonneg _
  · exact Nat.cast_nonneg _

theorem intRange_eq_nil (a b : Int) (h : b ≤ a) : intRange a b = [] := by
  rw [intRange]
  have h0 : (b - a).toNat = 0 := by omega
  rw [h0]
  rfl

theorem intRange_length (a b : Int) : (intRange a b).length = (b - a).toNat := by
  rw [intRange, List.length_map, List.length_range]

/-- On a non-positive horizon, `create_forecast` builds an empty
future-date list and fails with the prediction routine's empty-input
error (provided the frame has a last date at all). -/
theorem create_forecast_nonpos (model : ℚ → ℚ) (df : DataFrame) (hz : Int)
    (hz0 : hz ≤ 0) (hne : (df.getCol "Date") ≠ []) :
    create_forecast model df hz = .error .emptyPredictInput := by
  rw [create_forecast]
  cases hl : (df.getCol "Date").getLast? with
  | none => exact absurd (List.getLast?_eq_none_iff.1 hl) hne
  | some lastVal =>
    have hempty : intRange 1 (hz + 1) = [] := intRange_eq_nil _ _ (by omega)
    simp [hempty]

/-! ### Claim theorems -/

/-- C2: for every ticker whose fetched series is empty, `train_svr_model`
fails with the no-data error (`ValueError("No data available for the given
stock code.")`) before producing any model, metrics, or series — the call
returns only the error, no partial result. -/
theorem train_svr_model_empty_noData
    (fitSVR : SVRParams → List (ℚ × ℚ) → (ℚ → ℚ))
    (fetch : String → List RawRow) (cpu_load : ℚ) (stock_code : String)
    (h : fetch stock_code = []) :
    train_svr_model fitSVR fetch cpu_load stock_code = .error .noDataError := by
  rw [train_svr_model]
  simp [h]

/-- Witness for C2 at a concrete empty download. -/
theorem train_svr_model_empty_noData_witness :
    train_svr_model constFitSVR fetchEmpty 37 "MSFT" = .error .noDataError :=
  train_svr_model_empty_noData constFitSVR fetchEmpty 37 "MSFT" rfl

/-- C3 counterexample: at horizon 0 on a concrete one-row history,
`create_forecast` does not fail with a dedicated `InvalidHorizonError` —
no such validation exists in the code (`ForecastError` has no horizon
case); it fails with the prediction routine's generic empty-input
`ValueError` after already computing the (empty) future-date list. -/
theorem create_forecast_zero_horizon_cex :
    create_forecast (fun _ => 0) dfOneDate 0 = .error .emptyPredictInput := by
  rfl

/-- C3 as amended: `create_forecast` performs no horizon validation; on a
non-positive `forecast_days` it enumerates no future dates and the call
fails with the prediction routine's empty-input error — so no partial
`ForecastSeries` is produced, but the failure is a generic library
`ValueError`, not an `InvalidHorizonError`. -/
theorem create_forecast_nonpos_horizon (model : ℚ → ℚ) (df : DataFrame)
    (hz : Int) (hz0 : hz ≤ 0) (hne : (df.getCol "Date") ≠ []) :
    create_forecast model df hz = .error .emptyPredictInput :=
  create_forecast_nonpos model df hz hz0 hne

/-- Witness for the amended C3 at a concrete negative horizon. -/
theorem create_forecast_nonpos_horizon_witness :
    create_forecast (fun _ => 1) dfOneDate (-2) = .error .emptyPredictInput :=
  create_forecast_nonpos_horizon (fun _ => 1) dfOneDate (-2) (by decide) (by decide)

/-- C4: when the sampled CPU load exceeds 80 the grid search enumerates
exactly the 8 reduced-grid combinations (C ∈ {1, 10}, epsilon ∈ {0.1, 0.5},
gamma ∈ {scale, 0.1}); otherwise it enumerates exactly the 80 full-grid
combinations (C ∈ {0.1, 1, 10, 100}, epsilon ∈ {0.01, 0.1, 0.5, 1},
gamma ∈ {scale, auto, 0.01, 0.1, 1}), without duplicates. -/
theorem param_grid_cpu_selection (cpu_load : ℚ) :
    (cpu_load > 80 →
      (param_grid cpu_load).candidates =
        [⟨1, 1/10, .scale⟩, ⟨1, 1/10, .num (1/10)⟩,
         ⟨1, 1/2, .scale⟩, ⟨1, 1/2, .num (1/10)⟩,
         ⟨10, 1/10, .scale⟩, ⟨10, 1/10, .num (1/10)⟩,
         ⟨10, 1/2, .scale⟩, ⟨10, 1/2, .num (1/10)⟩]) ∧
    (¬(cpu_load > 80) →
      (param_grid cpu_load).candidates.length = 80 ∧
      (∀ p : SVRParams, p ∈ (param_grid cpu_load).candidates ↔
        (p.c ∈ ([1/10, 1, 10, 100] : List ℚ) ∧
         p.epsilon ∈ ([1/100, 1/10, 1/2, 1] : List ℚ) ∧
         p.gamma ∈ ([.scale, .auto, .num (1/100), .num (1/10), .num 1] : List Gamma)))) := by
  constructor
  · intro h
    rw [param_grid, if_pos h]
    rfl
  · intro h
    rw [param_grid, if_neg h]
    refine ⟨rfl, ?_⟩
    intro p
    constructor
    · intro hp
      simp only [ParamGrid.candidates, fullGrid, List.mem_flatMap, List.mem_map] at hp
      obtain ⟨c, hc, e, he, g, hg, heq⟩ := hp
      rw [← heq]
      exact ⟨hc, he, hg⟩
    · rintro ⟨hc, he, hg⟩
      simp only [ParamGrid.candidates, fullGrid, List.mem_flatMap, List.mem_map]
      exact ⟨p.c, hc, p.epsilon, he, p.gamma, hg, rfl⟩

/-- Witness for C4 at CPU loads 95 (reduced grid) and 10 (full grid). -/
theorem param_grid_cpu_selection_witness :
    (param_grid 95).candidates =
      [⟨1, 1/10, .scale⟩, ⟨1, 1/10, .num (1/10)⟩,
       ⟨1, 1/2, .scale⟩, ⟨1, 1/2, .num (1/10)⟩,
       ⟨10, 1/10, .scale⟩, ⟨10, 1/10, .num (1/10)⟩,
       ⟨10, 1/2, .scale⟩, ⟨10, 1/2, .num (1/10)⟩] ∧
    (param_grid 10).candidates.length = 80 :=
  ⟨(param_grid_cpu_selection 95).1 (by norm_num),
   ((param_grid_cpu_selection 10).2 (by norm_num)).1⟩

/-- C5: `train_test_split(X, y, test_size=0.1, shuffle=False)` partitions
the series chronologically without shuffling: the training segment is
exactly the leading 90% of the rows (the first `⌊9n/10⌋` in original
order), the testing segment exactly the trailing remainder, and the two
segments concatenate back to the original series.  The split is a pure
function of the series, so any two calls on the same series assign
exactly the same rows. -/
theorem train_test_split_chronological (X : List ℚ) (y : List ℚ) :
    (train_test_split X y).1 ++ (train_test_split X y).2.1 = X ∧
    (train_test_split X y).2.2.1 ++ (train_test_split X y).2.2.2 = y ∧
    (train_test_split X y).1 = X.take (9 * X.length / 10) ∧
    (train_test_split X y).2.1 = X.drop (9 * X.length / 10) ∧
    (train_test_split X y).2.2.1 = y.take (9 * X.length / 10) ∧
    (train_test_split X y).2.2.2 = y.drop (9 * X.length / 10) := by
  have h : X.length - (X.length + 9) / 10 = 9 * X.length / 10 := by omega
  refine ⟨?_, ?_, ?_, ?_, ?_, ?_⟩ <;>
    simp only [train_test_split, h, List.take_append_drop]

/-- Closed form of `create_forecast` on a positive horizon: one row per
future day, each date paired with the model's prediction at its ordinal. -/
theorem create_forecast_pos (model : ℚ → ℚ) (df : DataFrame) (hz ld : Int)
    (hlast : (df.getCol "Date").getLast? = some (Val.date ld)) (hpos : 1 ≤ hz) :
    create_forecast model df hz =
      .ok ((intRange 1 (hz + 1)).map fun i =>
        ⟨ld + i, model ((ld + i : Int) : ℚ)⟩) := by
  rw [create_forecast, hlast]
  simp only [Val.toTimestamp]
  have hlen : ((intRange 1 (hz + 1)).map fun i => ld + i).length = hz.toNat := by
    rw [List.length_map, intRange_length, add_sub_cancel_right]
  have hne : ((intRange 1 (hz + 1)).map fun i => ld + i) ≠ [] := by
    intro hnil
    rw [hnil] at hlen
    simp at hlen
    omega
  rw [← List.isEmpty_eq_false] at hne
  simp only [hne, Bool.false_eq_true, if_false]
  have hzip : ∀ (l : List Int) (m : Int → ℚ),
      l.zip (l.map m) = l.map fun d => (d, m d) := by
    intro l m
    calc l.zip (l.map m) = (l.map id).zip (l.map m) := by rw [List.map_id]
    _ = l.map fun d => (id d, m d) := List.zip_map' id m l
  rw [hzip]
  simp [List.map_map, Function.comp]

/-- C1: for every fitted model, every history frame whose `Date` column is
non-empty (last date `ld`), and every positive horizon, `create_forecast`
returns exactly `horizonDays` rows; the `i`-th row's date is `ld + 1 + i`
— so the dates are strictly increasing consecutive calendar days whose
first is the last historical date plus one — and each row carries exactly
the model's predicted price for its own date. -/
theorem create_forecast_horizon_spec (model : ℚ → ℚ) (df : DataFrame)
    (hz ld : Int)
    (hlast : (df.getCol "Date").getLast? = some (Val.date ld)) (hpos : 1 ≤ hz) :
    ∃ rows, create_forecast model df hz = .ok rows ∧
      rows.length = hz.toNat ∧
      ∀ i, ∀ hi : i < rows.length,
        (rows.get ⟨i, hi⟩).date = ld + 1 + (i : Int) ∧
        (rows.get ⟨i, hi⟩).predicted = model ((ld + 1 + (i : Int) : Int) : ℚ) := by
  refine ⟨_, create_forecast_pos model df hz ld hlast hpos, ?_, ?_⟩
  · rw [List.length_map, intRange_length, add_sub_cancel_right]
  · intro i hi
    rw [List.length_map, intRange_length, add_sub_cancel_right] at hi
    have hget : ((intRange 1 (hz + 1)).map fun j =>
        (⟨ld + j, model ((ld + j : Int) : ℚ)⟩ : ForecastRow)).get
          ⟨i, by rw [List.length_map, intRange_length, add_sub_cancel_right]; exact hi⟩ =
        ⟨ld + (1 + (i : Int)), model ((ld + (1 + (i : Int)) : Int) : ℚ)⟩ := by
      simp [List.get_eq_getElem, List.getElem_map, intRange, List.getElem_range]
    rw [hget]
    have harith : ld + (1 + (i : Int)) = ld + 1 + (i : Int) := by ring
    rw [harith]
    exact ⟨rfl, rfl⟩

/-- Witness for C1: three forecast days from a concrete one-row history. -/
theorem create_forecast_horizon_spec_witness :
    ∃ rows, create_forecast (fun _ => 0) dfOneDate 3 = .ok rows ∧
      rows.length = (3 : Int).toNat ∧
      ∀ i, ∀ hi : i < rows.length,
        (rows.get ⟨i, hi⟩).date = 738000 + 1 + (i : Int) ∧
        (rows.get ⟨i, hi⟩).predicted = (fun _ => (0 : ℚ)) ((738000 + 1 + (i : Int) : Int) : ℚ) :=
  create_forecast_horizon_spec (fun _ => 0) dfOneDate 3 738000 (by rfl) (by norm_num)

/-- C6: whenever `train_svr_model` reaches the hyperparameter search (the
download has ≥ 6 rows, so the training segment holds the ≥ 5 samples that
5-fold cross-validation needs), the returned model is the refit, on the
full training segment, of a grid candidate whose 5-fold cross-validated
negative-mean-squared-error score is maximal over the whole grid. -/
theorem grid_search_selects_best
    (fitSVR : SVRParams → List (ℚ × ℚ) → (ℚ → ℚ))
    (fetch : String → List RawRow) (cpu_load : ℚ) (stock_code : String)
    (h6 : 6 ≤ (fetch stock_code).length) :
    ∃ r p, train_svr_model fitSVR fetch cpu_load stock_code = .ok r ∧
      p ∈ (param_grid cpu_load).candidates ∧
      (∀ q ∈ (param_grid cpu_load).candidates,
        crossValScore 5 neg_mean_squared_error (fitSVR q) (trainingData (fetch stock_code)) ≤
        crossValScore 5 neg_mean_squared_error (fitSVR p) (trainingData (fetch stock_code))) ∧
      r.model = fitSVR p (trainingData (fetch stock_code)) := by
  obtain ⟨p, hmem, hmax, heq⟩ :=
    train_svr_model_success fitSVR fetch cpu_load stock_code h6
  exact ⟨_, p, heq, hmem, hmax, rfl⟩

/-- Witness for C6 at a concrete 6-row download under high CPU load. -/
theorem grid_search_selects_best_witness :
    ∃ r p, train_svr_model constFitSVR fetch6 95 "AAPL" = .ok r ∧
      p ∈ (param_grid 95).candidates ∧
      (∀ q ∈ (param_grid 95).candidates,
        crossValScore 5 neg_mean_squared_error (constFitSVR q) (trainingData (fetch6 "AAPL")) ≤
        crossValScore 5 neg_mean_squared_error (constFitSVR p) (trainingData (fetch6 "AAPL"))) ∧
      r.model = constFitSVR p (trainingData (fetch6 "AAPL")) :=
  grid_search_selects_best constFitSVR fetch6 95 "AAPL" (by decide)

/-- C8: for every ticker whose fetched series has length ≥ 10,
`train_svr_model` succeeds and returns a model together with MSE and MAE
that are non-negative (and, being exact rationals here, finite). -/
theorem fit_metrics_nonneg
    (fitSVR : SVRParams → List (ℚ × ℚ) → (ℚ → ℚ))
    (fetch : String → List RawRow) (cpu_load : ℚ) (stock_code : String)
    (h10 : 10 ≤ (fetch stock_code).length) :
    ∃ r, train_svr_model fitSVR fetch cpu_load stock_code = .ok r ∧
      0 ≤ r.mse ∧ 0 ≤ r.mae := by
  obtain ⟨p, _, _, heq⟩ :=
    train_svr_model_success fitSVR fetch cpu_load stock_code (by omega)
  exact ⟨_, heq, mean_squared_error_nonneg _ _, mean_absolute_error_nonneg _ _⟩

/-- Witness for C8 at a concrete 10-row download. -/
theorem fit_metrics_nonneg_witness :
    ∃ r, train_svr_model constFitSVR fetch10 30 "NVDA" = .ok r ∧
      0 ≤ r.mse ∧ 0 ≤ r.mae :=
  fit_metrics_nonneg constFitSVR fetch10 30 "NVDA" (by decide)

/-- C9 counterexample: on a concrete successful fit, the returned history
frame does not keep only (date, close): its columns are
`["Date", "Close", "Date_numeric"]` — the ordinal feature column added
during fitting is returned too. -/
theorem fit_history_extra_column_cex :
    (train_svr_model constFitSVR fetch6 95 "IBM").map (fun r => r.df.colNames) =
      .ok ["Date", "Close", "Date_numeric"] ∧
    (["Date", "Close", "Date_numeric"] : List String) ≠ ["Date", "Close"] := by
  constructor
  · obtain ⟨p, _, _, heq⟩ :=
      train_svr_model_success constFitSVR fetch6 95 "IBM" (by decide)
    rw [heq]
    simp [Except.map, colNames_builtDF]
  · decide

/-- C9 as amended: on every successful fit, the returned history frame
keeps the (date, close) pairs of the fetched series in order — plus the
one derived column `Date_numeric` holding each date's ordinal, added as
the regression feature during fitting; no other columns. -/
theorem fit_history_columns
    (fitSVR : SVRParams → List (ℚ × ℚ) → (ℚ → ℚ))
    (fetch : String → List RawRow) (cpu_load : ℚ) (stock_code : String)
    (h6 : 6 ≤ (fetch stock_code).length) :
    ∃ r, train_svr_model fitSVR fetch cpu_load stock_code = .ok r ∧
      r.df.colNames = ["Date", "Close", "Date_numeric"] ∧
      r.df.getCol "Date" = (fetch stock_code).map (fun row => Val.date row.date) ∧
      r.df.getCol "Close" = (fetch stock_code).map (fun row => Val.num row.close) ∧
      r.df.getCol "Date_numeric" =
        (fetch stock_code).map (fun row => Val.num ((row.date : Int) : ℚ)) := by
  obtain ⟨p, _, _, heq⟩ :=
    train_svr_model_success fitSVR fetch cpu_load stock_code h6
  exact ⟨_, heq, colNames_builtDF _, getCol_builtDF_date _,
    getCol_builtDF_close _, getCol_builtDF_datenum _⟩

/-- Witness for the amended C9 at a concrete 10-row download. -/
theorem fit_history_columns_witness :
    ∃ r, train_svr_model constFitSVR fetch10 20 "GOOG" = .ok r ∧
      r.df.colNames = ["Date", "Close", "Date_numeric"] ∧
      r.df.getCol "Date" = (fetch10 "GOOG").map (fun row => Val.date row.date) ∧
      r.df.getCol "Close" = (fetch10 "GOOG").map (fun row => Val.num row.close) ∧
      r.df.getCol "Date_numeric" =
        (fetch10 "GOOG").map (fun row => Val.num ((row.date : Int) : ℚ)) :=
  fit_history_columns constFitSVR fetch10 20 "GOOG" (by decide)

/-- C7 counterexample: a forecast request with the negative horizon −5 is
not rejected before fetching or fitting — the download and the fitting
step both happen (the event trace), the fit succeeds, and the eventual
failure is the prediction routine's empty-input error escaping
`create_forecast`, not an `InvalidHorizonError` surfaced before the fetch. -/
theorem forecast_negative_horizon_fetch_cex :
    forecast_stock constFitSVR fetch6 95 (some 1) (some "TSLA") (some (-5)) =
      (.uncaught .emptyPredictInput, [Event.fetchData "TSLA", Event.fitModel]) := by
  obtain ⟨p, _, _, heq⟩ :=
    train_svr_model_success constFitSVR fetch6 95 "TSLA" (by decide)
  have hcf : create_forecast (constFitSVR p (trainingData (fetch6 "TSLA")))
      (builtDF (fetch6 "TSLA")) (-5) = .error .emptyPredictInput := by
    apply create_forecast_nonpos
    · norm_num
    · rw [getCol_builtDF_date]
      simp [fetch6]
  rw [forecast_stock]
  have hguard : (truthyNat (some 1) && truthyStr (some "TSLA") &&
      truthyInt (some (-5))) = true := by decide
  rw [if_pos hguard]
  simp only [Option.getD_some, heq, hcf]
  rfl

/-- C7 as amended: only a falsy horizon (missing, `None`, or `0`) is
rejected before any work — via `PreventUpdate`, not an
`InvalidHorizonError`; a negative horizon passes the truthiness guard, so
the data fetch (and the fitting phase whenever the download is non-empty)
always occur, with no horizon validation anywhere on the path. -/
theorem forecast_guard_on_horizon
    (fitSVR : SVRParams → List (ℚ × ℚ) → (ℚ → ℚ))
    (fetch : String → List RawRow) (cpu_load : ℚ)
    (n : Nat) (code : String) (d : Int)
    (hn : n ≠ 0) (hc : code ≠ "") (hd : d < 0) :
    (forecast_stock fitSVR fetch cpu_load (some n) (some code) (some d)).2 =
      Event.fetchData code ::
        (if (fetch code).isEmpty then [] else [Event.fitModel]) := by
  have hd0 : d ≠ 0 := by omega
  have hguard : (truthyNat (some n) && truthyStr (some code) &&
      truthyInt (some d)) = true := by
    simp [truthyNat, truthyStr, truthyInt, hn, hc, hd0]
  cases htr : train_svr_model fitSVR fetch cpu_load code with
  | error e =>
    rw [forecast_stock, if_pos hguard]
    simp only [Option.getD_some, htr]
  | ok r =>
    cases hcf : create_forecast r.model r.df d with
    | error e =>
      rw [forecast_stock, if_pos hguard]
      simp only [Option.getD_some, htr, hcf]
    | ok fc =>
      rw [forecast_stock, if_pos hguard]
      simp only [Option.getD_some, htr, hcf]

/-- Witness for the amended C7 at a concrete negative horizon. -/
theorem forecast_guard_on_horizon_witness :
    (forecast_stock constFitSVR fetch3 50 (some 2) (some "MSFT") (some (-3))).2 =
      Event.fetchData "MSFT" ::
        (if (fetch3 "MSFT").isEmpty then [] else [Event.fitModel]) :=
  forecast_guard_on_horizon constFitSVR fetch3 50 2 "MSFT" (-3)
    (by decide) (by decide) (by decide)

/-- C10: whenever the forecast-days input is falsy (missing, `None`, or
`0`), the callback raises `PreventUpdate` immediately: no fetch and no
fitting step happen (the event trace is empty), so a zero horizon never
reaches the forecast engine. -/
theorem falsy_horizon_prevent_update
    (fitSVR : SVRParams → List (ℚ × ℚ) → (ℚ → ℚ))
    (fetch : String → List RawRow) (cpu_load : ℚ)
    (n_clicks : Option Nat) (stock_code : Option String)
    (forecast_days : Option Int) (h : truthyInt forecast_days = false) :
    forecast_stock fitSVR fetch cpu_load n_clicks stock_code forecast_days =
      (.preventUpdate, []) := by
  rw [forecast_stock]
  have hcond : ¬((truthyNat n_clicks && truthyStr stock_code &&
      truthyInt forecast_days) = true) := by
    simp [h]
  rw [if_neg hcond]

/-- Witness for C10 with the forecast-days input set to `0`. -/
theorem falsy_horizon_prevent_update_witness :
    forecast_stock constFitSVR fetch3 0 (some 1) (some "AAPL") (some 0) =
      (.preventUpdate, []) :=
  falsy_horizon_prevent_update constFitSVR fetch3 0 (some 1) (some "AAPL")
    (some 0) rfl

end StockForecast
